import Mathlib

/-
A verification development for the contact-book API repository.

The data model is taken from src/database/models.py and src/schemas.py,
the contact repository functions from src/repository/contacts.py, and the
per-endpoint role lists from src/routes/contacts.py.  The database session
is modelled as an explicit list of contact rows; a SQLAlchemy query of the
form query(Contact).filter(p).all() becomes List.filter, .first() becomes
List.find?, and .limit(l).offset(o) becomes the SQL semantics of applying
OFFSET before LIMIT.  Components of the identity layer whose code is not
present in the repository snapshot (services/auth.py, services/roles.py,
routes/auth.py, repository/users.py) are modelled from the specification
and carry a doc comment saying so.
-/

namespace App

/-- Role enumeration from src/database/models.py lines 10-13. -/
inductive Role
  | admin
  | moderator
  | user
deriving DecidableEq, Repr

/-- A Python date value as used for the birthday column: a year, month and
day.  Month and day are the fields that strftime with format m-d reads. -/
structure PyDate where
  year : Nat
  month : Nat
  day : Nat
deriving DecidableEq, Repr

/-- A month and day pair denotes a real calendar month-day: month between 1
and 12, day between 1 and 31.  Every value produced by the Python date type
satisfies this. -/
def PyDate.validMD (d : PyDate) : Prop :=
  1 ≤ d.month ∧ d.month ≤ 12 ∧ 1 ≤ d.day ∧ d.day ≤ 31

instance (d : PyDate) : Decidable d.validMD := by
  unfold PyDate.validMD; infer_instance

/-- Contact row from src/database/models.py lines 16-28.  The user_id
column is a nullable foreign key with default None, hence Option Nat. -/
structure Contact where
  id : Nat
  first_name : String
  last_name : String
  email : String
  phone_number : String
  birthday : PyDate
  description : String
  user_id : Option Nat
deriving DecidableEq, Repr

/-- User row from src/database/models.py lines 31-39.  The declared columns
are exactly id, username, email, password, created_at, refresh_token and
roles; there is no confirmed column and no avatar column. -/
structure User where
  id : Nat
  username : String
  email : String
  password : String
  created_at : Nat
  refresh_token : Option String
  roles : Role
deriving DecidableEq, Repr

/-- The attribute names declared on the User model in
src/database/models.py lines 31-39, in source order. -/
def userModelFields : List String :=
  ["id", "username", "email", "password", "created_at", "refresh_token", "roles"]

/-- The keyword arguments the repository test suite passes to the User
constructor in tests/test_unit_repository_users.py setUp (lines 33-41). -/
def testUserKwargs : List String :=
  ["id", "username", "email", "password", "refresh_token", "avatar", "confirmed"]

/-- ContactModel input schema from src/schemas.py lines 8-14. -/
structure ContactModel where
  first_name : String
  last_name : String
  email : String
  phone_number : String
  birthday : PyDate
  description : String
deriving DecidableEq, Repr

/-! ## Python string helpers used by the repository code -/

/-- Python str.capitalize: first character uppercased, the rest lowercased. -/
def pyCapitalize (s : String) : String :=
  match s.data with
  | [] => ""
  | c :: rest => String.mk (c.toUpper :: rest.map Char.toLower)

/-- Python str.lower. -/
def pyLower (s : String) : String := String.mk (s.data.map Char.toLower)

/-- Truthiness of an optional string parameter in Python: None and the
empty string are falsy, every other string is truthy. -/
def pyTruthy : Option String → Bool
  | none => false
  | some s => !s.isEmpty

/-- The string value of an optional parameter once it is known truthy. -/
def optVal (o : Option String) : String := o.getD ""

/-- Decision procedure for one list of characters being a prefix of
another, used to model the Python substring operator. -/
def isPrefixList : List Char → List Char → Bool
  | [], _ => true
  | _ :: _, [] => false
  | a :: as, b :: bs => a == b && isPrefixList as bs

/-- The Python expression needle in hay on strings: needle occurs as a
contiguous substring of hay. -/
def hasInfix (needle : List Char) : List Char → Bool
  | [] => needle.isEmpty
  | b :: t => isPrefixList needle (b :: t) || hasInfix needle t

/-- The character for a single decimal digit. -/
def digitChar (n : Nat) : Char := Char.ofNat (48 + n)

/-- Zero-padded two-digit decimal rendering, as produced by strftime with
the m and d directives for every real month and day value (both below
100). -/
def pad2 (n : Nat) : List Char := [digitChar (n / 10), digitChar (n % 10)]

/-- strftime with format m-d on a date: the zero-padded month, a dash, and
the zero-padded day; always exactly five characters. -/
def strftimeMD (d : PyDate) : List Char := pad2 d.month ++ [Char.ofNat 45] ++ pad2 d.day

/-! ## Contact repository, from src/repository/contacts.py -/

/-- get_contacts (src/repository/contacts.py lines 15-27): the rows whose
user_id equals the id of the given user, with the SQL OFFSET and LIMIT
applied. -/
def get_contacts (limit offset : Nat) (user : User) (db : List Contact) : List Contact :=
  (((db.filter (fun c => c.user_id == some user.id)).drop offset).take limit)

/-- get_contact_by_id (src/repository/contacts.py lines 30-44): the first
row whose id equals contact_id and whose user_id equals the id of the
given user. -/
def get_contact_by_id (contact_id : Nat) (user : User) (db : List Contact) : Option Contact :=
  db.find? (fun c => c.id == contact_id && c.user_id == some user.id)

/-- create (src/repository/contacts.py lines 47-62): a new row built from
the request body, owned by the given user; the row and the updated
database are returned.  The primary key is assigned by the store. -/
def create (newId : Nat) (body : ContactModel) (user : User) (db : List Contact) :
    Contact × List Contact :=
  let c : Contact :=
    { id := newId
      first_name := body.first_name
      last_name := body.last_name
      email := body.email
      phone_number := body.phone_number
      birthday := body.birthday
      description := body.description
      user_id := some user.id }
  (c, db ++ [c])

/-- update (src/repository/contacts.py lines 65-88): looks the row up with
get_contact_by_id; when found, overwrites its six data fields from the
body and commits, otherwise the database is untouched and None is
returned. -/
def update (contact_id : Nat) (body : ContactModel) (user : User) (db : List Contact) :
    Option Contact × List Contact :=
  match get_contact_by_id contact_id user db with
  | none => (none, db)
  | some c =>
    let c2 : Contact :=
      { c with
        first_name := body.first_name
        last_name := body.last_name
        email := body.email
        phone_number := body.phone_number
        birthday := body.birthday
        description := body.description }
    (some c2, db.map (fun x => if x == c then c2 else x))

/-- remove (src/repository/contacts.py lines 91-109): looks the row up
with get_contact_by_id; when found, deletes it and commits, otherwise the
database is untouched and None is returned. -/
def remove (contact_id : Nat) (user : User) (db : List Contact) :
    Option Contact × List Contact :=
  match get_contact_by_id contact_id user db with
  | none => (none, db)
  | some c => (some c, db.erase c)

/-- search_contacts (src/repository/contacts.py lines 112-157): cascading
truthiness tests on the three optional parameters; every populated branch
filters on the user id as well; when all three parameters are falsy the
function falls through to return None. -/
def search_contacts (user : User) (db : List Contact)
    (first_name last_name email : Option String) : Option (List Contact) :=
  if pyTruthy first_name && pyTruthy last_name && pyTruthy email then
    some (db.filter (fun c =>
      c.first_name == pyCapitalize (optVal first_name) &&
      c.last_name == pyCapitalize (optVal last_name) &&
      c.email == pyLower (optVal email) &&
      c.user_id == some user.id))
  else if pyTruthy first_name && pyTruthy last_name then
    some (db.filter (fun c =>
      c.first_name == pyCapitalize (optVal first_name) &&
      c.last_name == pyCapitalize (optVal last_name) &&
      c.user_id == some user.id))
  else if pyTruthy last_name && pyTruthy email then
    some (db.filter (fun c =>
      c.last_name == pyCapitalize (optVal last_name) &&
      c.email == pyLower (optVal email) &&
      c.user_id == some user.id))
  else if pyTruthy first_name && pyTruthy email then
    some (db.filter (fun c =>
      c.first_name == pyCapitalize (optVal first_name) &&
      c.email == pyLower (optVal email) &&
      c.user_id == some user.id))
  else if pyTruthy first_name then
    some (db.filter (fun c =>
      c.first_name == pyCapitalize (optVal first_name) && c.user_id == some user.id))
  else if pyTruthy last_name then
    some (db.filter (fun c =>
      c.last_name == pyCapitalize (optVal last_name) && c.user_id == some user.id))
  else if pyTruthy email then
    some (db.filter (fun c =>
      c.email == pyLower (optVal email) && c.user_id == some user.id))
  else
    none

/-- birthday_contacts (src/repository/contacts.py lines 160-206): filters
the rows of the given user, renders seven day strings with strftime format
m-d for today through today plus six days, and keeps a contact when one of
the seven strings occurs as a substring of the strftime rendering of the
birthday.  The seven dates are passed in, mirroring day_one through
day_seven in the source. -/
def birthday_contacts (user : User) (d1 d2 d3 d4 d5 d6 d7 : PyDate)
    (db : List Contact) : List Contact :=
  (db.filter (fun c => c.user_id == some user.id)).filter (fun c =>
    hasInfix (strftimeMD d1) (strftimeMD c.birthday) ||
    hasInfix (strftimeMD d2) (strftimeMD c.birthday) ||
    hasInfix (strftimeMD d3) (strftimeMD c.birthday) ||
    hasInfix (strftimeMD d4) (strftimeMD c.birthday) ||
    hasInfix (strftimeMD d5) (strftimeMD c.birthday) ||
    hasInfix (strftimeMD d6) (strftimeMD c.birthday) ||
    hasInfix (strftimeMD d7) (strftimeMD c.birthday))

/-! ## Role lists from src/routes/contacts.py lines 22-25 -/

/-- Roles permitted on the read endpoints (get, search, birthday). -/
def allowed_operation_get : List Role := [Role.admin, Role.moderator, Role.user]

/-- Roles permitted on the create endpoint. -/
def allowed_operation_create : List Role := [Role.admin, Role.moderator, Role.user]

/-- Roles permitted on the update endpoint. -/
def allowed_operation_update : List Role := [Role.admin, Role.moderator]

/-- Roles permitted on the delete endpoint. -/
def allowed_operation_remove : List Role := [Role.admin]

/-! ## Identity layer

The code of services/auth.py, services/roles.py, routes/auth.py and
repository/users.py is not part of the repository snapshot; only its
tests, its callers and the specification describe it.  The definitions
below model it from the specification text. -/

/-- Outcomes produced by the identity layer, from the error taxonomy of
the specification, section 7. -/
inductive AuthError
  | AccountExists
  | InvalidEmail
  | InvalidPassword
  | EmailNotConfirmed
  | InvalidConfirmationToken
  | TokenExpired
  | TokenMalformed
  | TokenWrongClass
  | RefreshTokenRevoked
  | Unauthenticated
  | Forbidden
  | RateLimited
deriving DecidableEq, Repr

namespace Hasher

/-- Modelled from the spec: the Password Hasher digest (section 4.1); the
code of the hasher lives in the absent services/auth.py.  The salt is
embedded in the digest output, and the tag is an idealised collision-free
one-way image of the salted plaintext, rendered here as an injective
function of the plaintext characters mixed with the salt. -/
structure Digest where
  salt : Nat
  tag : List Nat
deriving DecidableEq, Repr

/-- Modelled from the spec: hash(plaintext) for the Password Hasher of
section 4.1, with the salt made explicit; the real implementation draws
the salt at random and is absent from the snapshot. -/
def hashPassword (salt : Nat) (plaintext : String) : Digest :=
  ⟨salt, plaintext.data.map (fun c => c.toNat + salt)⟩

/-- Modelled from the spec: verify(plaintext, digest) for the Password
Hasher of section 4.1; recomputes the tag with the salt embedded in the
digest and compares. -/
def verify (plaintext : String) (d : Digest) : Bool :=
  d.tag == plaintext.data.map (fun c => c.toNat + d.salt)

end Hasher

/-- Token class discriminator, from the Token data model of the
specification, section 3. -/
inductive TokenClass
  | access
  | refresh
deriving DecidableEq, Repr

/-- Modelled from the spec: the signed claim set of a token, carrying
subject, class, issued_at and expires_at (sections 3 and 6).  The signing
step is idealised away: a token string on the wire is identified with the
claim set it signs, since any mutation would invalidate the signature. -/
structure Token where
  subject : String
  cls : TokenClass
  issued_at : Nat
  expires_at : Nat
deriving DecidableEq, Repr

namespace TokenService

/-- Modelled from the spec: the access-token lifetime policy of section 3,
short-lived, in seconds. -/
def accessTtl : Nat := 15 * 60

/-- Modelled from the spec: the refresh-token lifetime policy of section
3, longer than the access lifetime by more than an order of magnitude. -/
def refreshTtl : Nat := 7 * 24 * 60 * 60

/-- Modelled from the spec: issue_access(subject) of section 4.2; the
implementation lives in the absent services/auth.py. -/
def issue_access (subject : String) (now : Nat) : Token :=
  ⟨subject, TokenClass.access, now, now + accessTtl⟩

/-- Modelled from the spec: issue_refresh(subject) of section 4.2. -/
def issue_refresh (subject : String) (now : Nat) : Token :=
  ⟨subject, TokenClass.refresh, now, now + refreshTtl⟩

/-- Modelled from the spec: verify(token_string, expected_class) of
section 4.2.  The class discriminator is checked against the expected
class, then expiry; the specification fixes no order between the two
checks, and the class check is placed first so that a token of the wrong
class is always reported as TokenWrongClass.  TokenMalformed cannot arise
in this model because a wire token is identified with its signed claim
set. -/
def verify (t : Token) (expected : TokenClass) (now : Nat) : Except AuthError String :=
  if t.cls ≠ expected then Except.error AuthError.TokenWrongClass
  else if t.expires_at < now then Except.error AuthError.TokenExpired
  else Except.ok t.subject

end TokenService

/-- Modelled from the spec: the Account record of section 3 as the
Account Lifecycle Controller uses it; the persistent model in
src/database/models.py lacks the confirmed flag, while the lifecycle
of the specification and the tests of the absent auth code require it.
The stored refresh token is the serialized form of the most recently
issued refresh token, or none. -/
structure Account where
  id : Nat
  email : String
  username : String
  password_hash : Hasher.Digest
  confirmed : Bool
  refresh_token : Option Token
  roles : Role
deriving DecidableEq, Repr

/-- TokenModel response schema from src/schemas.py lines 64-67: an access
token, a refresh token, and the token type whose default is the literal
string bearer. -/
structure TokenModel where
  access_token : Token
  refresh_token : Token
  token_type : String := "bearer"
deriving DecidableEq, Repr

/-- Modelled from the spec: find_by_email of the Credential Store
interface, section 6; the code lives in the absent repository/users.py. -/
def find_by_email (store : List Account) (email : String) : Option Account :=
  store.find? (fun a => a.email == email)

/-- Modelled from the spec: the Credential Store update that persists a
refresh-token value on the account with the given email, overwriting any
prior value (section 4.5, Login and RefreshSession). -/
def store_refresh_token (store : List Account) (email : String) (rt : Option Token) :
    List Account :=
  store.map (fun a => if a.email == email then { a with refresh_token := rt } else a)

/-- Modelled from the spec: Signup(email, username, password) of section
4.5, implemented in the absent routes/auth.py and repository/users.py.
Fails with AccountExists when an account with the same email already
exists under case-insensitive comparison, leaving the store unchanged;
otherwise hashes the password and appends a new unconfirmed account with
role user.  The result pairs the outcome with the resulting store. -/
def signup (store : List Account) (email username password : String) (salt : Nat) :
    Except AuthError Account × List Account :=
  if store.any (fun a => pyLower a.email == pyLower email) then
    (Except.error AuthError.AccountExists, store)
  else
    let acc : Account :=
      { id := store.length + 1
        email := email
        username := username
        password_hash := Hasher.hashPassword salt password
        confirmed := false
        refresh_token := none
        roles := Role.user }
    (Except.ok acc, store ++ [acc])

/-- Modelled from the spec: Login(email, password) of section 4.5,
implemented in the absent routes/auth.py.  No account with the email gives
InvalidEmail; an unconfirmed account gives EmailNotConfirmed before any
password comparison; a failed hash verification gives InvalidPassword;
otherwise an access and a refresh token are issued, the refresh token is
persisted on the account, and both tokens are returned with token type
bearer.  The result pairs the outcome with the resulting store. -/
def login (store : List Account) (email password : String) (now : Nat) :
    Except AuthError TokenModel × List Account :=
  match find_by_email store email with
  | none => (Except.error AuthError.InvalidEmail, store)
  | some a =>
    if a.confirmed = false then (Except.error AuthError.EmailNotConfirmed, store)
    else if Hasher.verify password a.password_hash = false then
      (Except.error AuthError.InvalidPassword, store)
    else
      let at2 := TokenService.issue_access a.email now
      let rt2 := TokenService.issue_refresh a.email now
      (Except.ok { access_token := at2, refresh_token := rt2, token_type := "bearer" },
        store_refresh_token store a.email (some rt2))

/-- Modelled from the spec: RefreshSession(refresh_token) of section 4.5,
implemented in the absent routes/auth.py.  The token must verify under
expected class refresh; the subject must resolve to an account; the
serialized form of the presented token must equal the value stored on the
account, otherwise RefreshTokenRevoked; on success a new access token is
issued and a rotated refresh token replaces the stored one.  The result
pairs the outcome with the resulting store. -/
def refresh_session (store : List Account) (t : Token) (now : Nat) :
    Except AuthError TokenModel × List Account :=
  match TokenService.verify t TokenClass.refresh now with
  | Except.error e => (Except.error e, store)
  | Except.ok subject =>
    match find_by_email store subject with
    | none => (Except.error AuthError.Unauthenticated, store)
    | some a =>
      if a.refresh_token ≠ some t then (Except.error AuthError.RefreshTokenRevoked, store)
      else
        let at2 := TokenService.issue_access a.email now
        let rt2 := TokenService.issue_refresh a.email now
        (Except.ok { access_token := at2, refresh_token := rt2, token_type := "bearer" },
          store_refresh_token store a.email (some rt2))

/-- Modelled from the spec: the Role Authorizer of section 4.3,
implemented in the absent services/roles.py as the RoleAccess dependency.
A caller with a valid identity passes when the caller role is a member of
the permitted set and is otherwise denied with Forbidden, an outcome
distinct from Unauthenticated. -/
def roleAccessCheck (allowed : List Role) (r : Role) : Except AuthError Unit :=
  if r ∈ allowed then Except.ok () else Except.error AuthError.Forbidden

/-! ## Sample values used to instantiate the theorems below -/

/-- A sample user row. -/
def user0 : User :=
  { id := 1, username := "tester", email := "test@test.com", password := "x",
    created_at := 0, refresh_token := none, roles := Role.user }

/-- A sample contact request body. -/
def body0 : ContactModel :=
  { first_name := "Ada", last_name := "Lovelace", email := "ada@x.com",
    phone_number := "+380687770001", birthday := ⟨1990, 3, 14⟩,
    description := "a sample description" }

/-- A sample contact row owned by user0. -/
def contact0 : Contact :=
  { id := 1, first_name := "Ada", last_name := "Lovelace", email := "ada@x.com",
    phone_number := "+380687770001", birthday := ⟨1990, 3, 14⟩,
    description := "a sample description", user_id := some 1 }

/-- A sample date. -/
def date0 : PyDate := ⟨2026, 3, 14⟩

/-- A sample unconfirmed account. -/
def acct0 : Account :=
  { id := 1, email := "a@x.com", username := "alice",
    password_hash := Hasher.hashPassword 3 "secret1", confirmed := false,
    refresh_token := none, roles := Role.user }

/-- A sample confirmed account holding a stored refresh token. -/
def acct1 : Account :=
  { id := 2, email := "b@x.com", username := "bella",
    password_hash := Hasher.hashPassword 5 "secret2", confirmed := true,
    refresh_token := some (TokenService.issue_refresh "b@x.com" 50), roles := Role.user }

/-! ## Theorems -/

/-- C2: the claim says every account record carries a boolean confirmed
field; the User model of src/database/models.py declares no confirmed
column, while the repository test suite passes confirmed as a constructor
keyword, so the model contradicts its own tests. -/
theorem c2_user_model_lacks_confirmed :
    "confirmed" ∉ userModelFields ∧ "confirmed" ∈ testUserKwargs := by
  decide

/-- C3: the role sets attached to the contact endpoints are exactly admin,
moderator and user for read and create, admin and moderator for update,
and admin for delete; the role check passes precisely on membership of the
permitted set, denial is Forbidden, and Forbidden is distinct from
Unauthenticated. -/
theorem c3_role_requirements :
    (∀ r : Role, r ∈ allowed_operation_get ↔
      (r = Role.admin ∨ r = Role.moderator ∨ r = Role.user)) ∧
    (∀ r : Role, r ∈ allowed_operation_create ↔
      (r = Role.admin ∨ r = Role.moderator ∨ r = Role.user)) ∧
    (∀ r : Role, r ∈ allowed_operation_update ↔ (r = Role.admin ∨ r = Role.moderator)) ∧
    (∀ r : Role, r ∈ allowed_operation_remove ↔ r = Role.admin) ∧
    (∀ (allowed : List Role) (r : Role), roleAccessCheck allowed r = Except.ok () ↔ r ∈ allowed) ∧
    (∀ (allowed : List Role) (r : Role), r ∉ allowed →
      roleAccessCheck allowed r = Except.error AuthError.Forbidden) ∧
    AuthError.Forbidden ≠ AuthError.Unauthenticated := by
  refine ⟨?_, ?_, ?_, ?_, ?_, ?_, by decide⟩
  · intro r; cases r <;> simp [allowed_operation_get]
  · intro r; cases r <;> simp [allowed_operation_create]
  · intro r; cases r <;> simp [allowed_operation_update]
  · intro r; cases r <;> simp [allowed_operation_remove]
  · intro allowed r
    constructor
    · intro h
      by_contra hn
      simp [roleAccessCheck, hn] at h
    · intro h
      simp [roleAccessCheck, h]
  · intro allowed r h
    simp [roleAccessCheck, h]

/-- C3 witness: a caller with role user is denied the delete operation
with Forbidden. -/
theorem c3_role_requirements_witness :
    roleAccessCheck allowed_operation_remove Role.user = Except.error AuthError.Forbidden :=
  c3_role_requirements.2.2.2.2.2.1 allowed_operation_remove Role.user (by decide)

/-- C5: a token issued by issue_access never verifies under expected class
refresh and a token issued by issue_refresh never verifies under expected
class access; both fail with TokenWrongClass. -/
theorem c5_token_class_separation :
    ∀ (subject : String) (issueTime checkTime : Nat),
      TokenService.verify (TokenService.issue_access subject issueTime)
          TokenClass.refresh checkTime = Except.error AuthError.TokenWrongClass ∧
      TokenService.verify (TokenService.issue_refresh subject issueTime)
          TokenClass.access checkTime = Except.error AuthError.TokenWrongClass := by
  intro subject issueTime checkTime
  constructor <;>
    simp [TokenService.verify, TokenService.issue_access, TokenService.issue_refresh]

/-- C9: password hashing round-trips: verification succeeds on the
original plaintext and fails on every other plaintext. -/
theorem c9_hash_verify_roundtrip :
    ∀ (salt : Nat) (p q : String),
      Hasher.verify p (Hasher.hashPassword salt p) = true ∧
      (q ≠ p → Hasher.verify q (Hasher.hashPassword salt p) = false) := by
  intro salt p q
  constructor
  · simp [Hasher.verify, Hasher.hashPassword]
  · intro hne
    simp only [Hasher.verify, Hasher.hashPassword, beq_eq_false_iff_ne, ne_eq]
    intro heq
    apply hne
    have hinj : Function.Injective (fun c : Char => c.toNat + salt) := by
      intro a b h
      simp only [Nat.add_right_cancel_iff] at h
      exact Char.eq_of_val_eq (UInt32.ext h)
    have hdata : p.data = q.data := List.map_injective_iff.mpr hinj heq
    cases p; cases q; simp_all

/-- C9 witness: round-trip at a concrete salt and plaintexts. -/
theorem c9_hash_verify_roundtrip_witness :
    Hasher.verify "secret1" (Hasher.hashPassword 3 "secret1") = true ∧
    Hasher.verify "secret2" (Hasher.hashPassword 3 "secret1") = false :=
  ⟨(c9_hash_verify_roundtrip 3 "secret1" "secret2").1,
    (c9_hash_verify_roundtrip 3 "secret1" "secret2").2 (by decide)⟩

/-- C6: a signup request whose email matches a stored account under
case-insensitive comparison fails with AccountExists and leaves the store
unchanged, for every username and password in the request. -/
theorem c6_signup_duplicate_email :
    ∀ (store : List Account) (a : Account) (email username password : String) (salt : Nat),
      a ∈ store → pyLower a.email = pyLower email →
      signup store email username password salt = (Except.error AuthError.AccountExists, store) := by
  intro store a email username password salt ha heq
  have hany : store.any (fun x => pyLower x.email == pyLower email) = true :=
    List.any_eq_true.mpr ⟨a, ha, by simp [heq]⟩
  simp [signup, hany]

/-- C6 witness: a duplicate signup differing in case, username and
password is rejected and the store is unchanged. -/
theorem c6_signup_duplicate_email_witness :
    signup [acct0] "A@X.com" "other_name" "other_password" 9 =
      (Except.error AuthError.AccountExists, [acct0]) :=
  c6_signup_duplicate_email [acct0] acct0 "A@X.com" "other_name" "other_password" 9
    (by decide) (by decide)

/-- C10: calling search_contacts with the three filters all absent or
empty returns None rather than a list of contacts. -/
theorem c10_search_blank_returns_none :
    ∀ (user : User) (db : List Contact) (first_name last_name email : Option String),
      pyTruthy first_name = false → pyTruthy last_name = false → pyTruthy email = false →
      search_contacts user db first_name last_name email = none := by
  intro user db fn ln em h1 h2 h3
  simp [search_contacts, h1, h2, h3]

/-- C10 witness: a search with all filters absent returns None on a
non-empty contact table. -/
theorem c10_search_blank_returns_none_witness :
    search_contacts user0 [contact0] none none (some "") = none :=
  c10_search_blank_returns_none user0 [contact0] none none (some "") rfl rfl rfl

/-- Success of token verification forces the subject, the class and the
expiry bound. -/
lemma verify_ok_elim {t : Token} {expected : TokenClass} {now : Nat} {s : String}
    (h : TokenService.verify t expected now = Except.ok s) :
    s = t.subject ∧ t.cls = expected ∧ now ≤ t.expires_at := by
  unfold TokenService.verify at h
  by_cases h1 : t.cls = expected
  · by_cases h2 : t.expires_at < now
    · simp [h1, h2] at h
    · simp [h1, h2] at h
      exact ⟨h.symm, h1, Nat.not_lt.mp h2⟩
  · simp [h1] at h

/-- Writing a refresh-token value for an email rewrites exactly the found
account under lookup by that email. -/
lemma find_by_email_store_refresh (store : List Account) (email : String) (rt : Option Token) :
    find_by_email (store_refresh_token store email rt) email =
      (find_by_email store email).map (fun a => { a with refresh_token := rt }) := by
  induction store with
  | nil => simp [find_by_email, store_refresh_token]
  | cons a rest ih =>
    by_cases h : a.email = email
    · simp [find_by_email, store_refresh_token, List.find?, h]
    · have hb : (a.email == email) = false := by simp [h]
      simp only [store_refresh_token, List.map_cons, find_by_email, List.find?, if_neg h, hb,
        Bool.false_eq_true, if_false] at *
      exact ih

/-- A successful account lookup pins the account email. -/
lemma find_by_email_some_email {store : List Account} {email : String} {a : Account}
    (h : find_by_email store email = some a) : a.email = email := by
  unfold find_by_email at h
  have hp := List.find?_some h
  simp only [beq_iff_eq] at hp
  exact hp

/-- A successful refresh reveals the account, requires the presented token
to equal the stored one, and rotates the stored token. -/
lemma refresh_session_ok_elim {store : List Account} {t : Token} {now : Nat}
    {tm : TokenModel} {store2 : List Account}
    (h : refresh_session store t now = (Except.ok tm, store2)) :
    ∃ a, find_by_email store t.subject = some a ∧ a.refresh_token = some t ∧
      tm = { access_token := TokenService.issue_access a.email now,
             refresh_token := TokenService.issue_refresh a.email now,
             token_type := "bearer" } ∧
      store2 = store_refresh_token store a.email
        (some (TokenService.issue_refresh a.email now)) ∧
      a.email = t.subject := by
  unfold refresh_session at h
  split at h
  · simp at h
  · rename_i subject hv
    obtain ⟨hs, _, _⟩ := verify_ok_elim hv
    subst hs
    split at h
    · simp at h
    · rename_i a hfind
      split at h
      · simp at h
      · rename_i hrt
        push_neg at hrt
        simp only [Prod.mk.injEq, Except.ok.injEq] at h
        exact ⟨a, hfind, hrt, h.1.symm, h.2.symm, find_by_email_some_email hfind⟩

/-- A successful login reveals the account and the rotated stored refresh
token. -/
lemma login_ok_elim {store : List Account} {email password : String} {now : Nat}
    {tm : TokenModel} {store2 : List Account}
    (h : login store email password now = (Except.ok tm, store2)) :
    ∃ a, find_by_email store email = some a ∧
      tm.refresh_token = TokenService.issue_refresh a.email now ∧
      store2 = store_refresh_token store a.email
        (some (TokenService.issue_refresh a.email now)) ∧
      a.email = email := by
  unfold login at h
  split at h
  · simp at h
  · rename_i a hfind
    split at h
    · simp at h
    · split at h
      · simp at h
      · simp only [Prod.mk.injEq, Except.ok.injEq] at h
        refine ⟨a, hfind, ?_, h.2.symm, find_by_email_some_email hfind⟩
        rw [← h.1]

/-- C1: login yields InvalidEmail when no account matches, otherwise
EmailNotConfirmed on an unconfirmed account before any password
comparison, otherwise InvalidPassword on hash mismatch, otherwise both
tokens with token type the literal string bearer. -/
theorem c1_login_flow :
    ∀ (store : List Account) (email password : String) (now : Nat),
      (find_by_email store email = none →
        login store email password now = (Except.error AuthError.InvalidEmail, store)) ∧
      (∀ a, find_by_email store email = some a → a.confirmed = false →
        login store email password now = (Except.error AuthError.EmailNotConfirmed, store)) ∧
      (∀ a, find_by_email store email = some a → a.confirmed = true →
        Hasher.verify password a.password_hash = false →
        login store email password now = (Except.error AuthError.InvalidPassword, store)) ∧
      (∀ a, find_by_email store email = some a → a.confirmed = true →
        Hasher.verify password a.password_hash = true →
        ∃ (tm : TokenModel) (store2 : List Account),
          login store email password now = (Except.ok tm, store2) ∧
          tm.token_type = "bearer") := by
  intro store email password now
  refine ⟨?_, ?_, ?_, ?_⟩
  · intro h
    simp [login, h]
  · intro a hfind hconf
    simp [login, hfind, hconf]
  · intro a hfind hconf hver
    simp [login, hfind, hconf, hver]
  · intro a hfind hconf hver
    refine ⟨{ access_token := TokenService.issue_access a.email now,
              refresh_token := TokenService.issue_refresh a.email now,
              token_type := "bearer" },
            store_refresh_token store a.email
              (some (TokenService.issue_refresh a.email now)), ?_, rfl⟩
    simp [login, hfind, hconf, hver]

/-- C1 witness: logging in to an unconfirmed account with the correct
password yields EmailNotConfirmed. -/
theorem c1_login_flow_witness :
    login [acct0] "a@x.com" "secret1" 0 =
      (Except.error AuthError.EmailNotConfirmed, [acct0]) :=
  (c1_login_flow [acct0] "a@x.com" "secret1" 0).2.1 acct0 (by decide) (by decide)

/-- C4: a refresh succeeds only when the presented token equals the value
stored on the account; a valid unexpired refresh token differing from the
stored value is rejected with RefreshTokenRevoked; and a successful
refresh or login stores the newly issued refresh token on the account, so
any previously issued refresh token no longer matches. -/
theorem c4_refresh_rotation :
    ∀ (store : List Account) (t : Token) (now : Nat),
      (∀ tm store2, refresh_session store t now = (Except.ok tm, store2) →
        ∃ a, find_by_email store t.subject = some a ∧ a.refresh_token = some t) ∧
      (∀ a, t.cls = TokenClass.refresh → now ≤ t.expires_at →
        find_by_email store t.subject = some a → a.refresh_token ≠ some t →
        refresh_session store t now = (Except.error AuthError.RefreshTokenRevoked, store)) ∧
      (∀ tm store2, refresh_session store t now = (Except.ok tm, store2) →
        find_by_email store2 t.subject =
          (find_by_email store t.subject).map
            (fun a => { a with refresh_token := some tm.refresh_token })) ∧
      (∀ (email password : String) (tm : TokenModel) (store2 : List Account),
        login store email password now = (Except.ok tm, store2) →
        ∃ a2, find_by_email store2 email = some a2 ∧
          a2.refresh_token = some tm.refresh_token) := by
  intro store t now
  refine ⟨?_, ?_, ?_, ?_⟩
  · intro tm store2 h
    obtain ⟨a, hfind, hrt, _⟩ := refresh_session_ok_elim h
    exact ⟨a, hfind, hrt⟩
  · intro a hcls hle hfind hne
    have hv : TokenService.verify t TokenClass.refresh now = Except.ok t.subject := by
      simp [TokenService.verify, hcls, Nat.not_lt.mpr hle]
    simp [refresh_session, hv, hfind, hne]
  · intro tm store2 h
    obtain ⟨a, hfind, _, htm, hstore2, hemail⟩ := refresh_session_ok_elim h
    subst htm
    subst hstore2
    rw [← hemail] at hfind ⊢
    rw [find_by_email_store_refresh, hfind]
  · intro email password tm store2 h
    obtain ⟨a, hfind, htm, hstore2, hemail⟩ := login_ok_elim h
    subst hstore2
    refine ⟨{ a with refresh_token := some (TokenService.issue_refresh a.email now) }, ?_, ?_⟩
    · rw [← hemail] at hfind ⊢
      rw [find_by_email_store_refresh, hfind]
      rfl
    · rw [htm]

/-- C4 witness: presenting a refresh token that differs from the stored
one is rejected with RefreshTokenRevoked. -/
theorem c4_refresh_rotation_witness :
    refresh_session [acct1] (TokenService.issue_refresh "b@x.com" 60) 70 =
      (Except.error AuthError.RefreshTokenRevoked, [acct1]) :=
  (c4_refresh_rotation [acct1] (TokenService.issue_refresh "b@x.com" 60) 70).2.1 acct1
    rfl (by decide) (by decide) (by decide)

/-- A successful row lookup pins the row id and owner. -/
lemma get_contact_by_id_user {contact_id : Nat} {user : User} {db : List Contact} {c : Contact}
    (h : get_contact_by_id contact_id user db = some c) :
    c.id = contact_id ∧ c.user_id = some user.id := by
  unfold get_contact_by_id at h
  have hp := List.find?_some h
  simp only [Bool.and_eq_true, beq_iff_eq] at hp
  exact hp

/-- C7: every contact repository operation returns or mutates only rows
whose user_id is the id of the calling user; update and remove on an id
that does not exist or belongs to another user return None and leave the
table unchanged. -/
theorem c7_tenant_isolation :
    ∀ (limit offset contact_id newId : Nat) (body : ContactModel) (user : User)
      (db : List Contact) (first_name last_name email : Option String)
      (d1 d2 d3 d4 d5 d6 d7 : PyDate),
      (∀ c ∈ get_contacts limit offset user db, c.user_id = some user.id) ∧
      (∀ c, get_contact_by_id contact_id user db = some c → c.user_id = some user.id) ∧
      ((create newId body user db).1.user_id = some user.id ∧
        (create newId body user db).2 = db ++ [(create newId body user db).1]) ∧
      (∀ c, (update contact_id body user db).1 = some c → c.user_id = some user.id) ∧
      (∀ x ∈ db, x.user_id ≠ some user.id → x ∈ (update contact_id body user db).2) ∧
      (∀ c, (remove contact_id user db).1 = some c → c.user_id = some user.id) ∧
      (∀ x ∈ db, x.user_id ≠ some user.id → x ∈ (remove contact_id user db).2) ∧
      (∀ l, search_contacts user db first_name last_name email = some l →
        ∀ c ∈ l, c.user_id = some user.id) ∧
      (∀ c ∈ birthday_contacts user d1 d2 d3 d4 d5 d6 d7 db, c.user_id = some user.id) ∧
      ((∀ c ∈ db, ¬(c.id = contact_id ∧ c.user_id = some user.id)) →
        update contact_id body user db = (none, db) ∧
        remove contact_id user db = (none, db)) := by
  intro limit offset contact_id newId body user db first_name last_name email d1 d2 d3 d4 d5 d6 d7
  refine ⟨?_, ?_, ⟨rfl, rfl⟩, ?_, ?_, ?_, ?_, ?_, ?_, ?_⟩
  · intro c hc
    have h1 : c ∈ db.filter (fun c => c.user_id == some user.id) :=
      List.mem_of_mem_drop (List.mem_of_mem_take hc)
    have hp := (List.mem_filter.mp h1).2
    simpa using hp
  · intro c h
    exact (get_contact_by_id_user h).2
  · intro c h
    unfold update at h
    split at h
    · simp at h
    · rename_i c0 hfind
      simp only [Option.some.injEq] at h
      have := (get_contact_by_id_user hfind).2
      rw [← h]
      exact this
  · intro x hx hne
    unfold update
    split
    · simpa using hx
    · rename_i c0 hfind
      have hc0 := (get_contact_by_id_user hfind).2
      have hxc : x ≠ c0 := fun he => hne (he ▸ hc0)
      apply List.mem_map.mpr
      exact ⟨x, hx, by simp [hxc]⟩
  · intro c h
    unfold remove at h
    split at h
    · simp at h
    · rename_i c0 hfind
      simp only [Option.some.injEq] at h
      have := (get_contact_by_id_user hfind).2
      rw [← h]
      exact this
  · intro x hx hne
    unfold remove
    split
    · simpa using hx
    · rename_i c0 hfind
      have hc0 := (get_contact_by_id_user hfind).2
      have hxc : x ≠ c0 := fun he => hne (he ▸ hc0)
      exact (List.mem_erase_of_ne hxc).mpr hx
  · intro l hl c hc
    unfold search_contacts at hl
    split_ifs at hl <;>
      (injection hl with hl2
       subst hl2
       have hp := (List.mem_filter.mp hc).2
       simp only [Bool.and_eq_true, beq_iff_eq] at hp
       exact hp.2)
  · intro c hc
    have h1 : c ∈ db.filter (fun c => c.user_id == some user.id) :=
      (List.mem_filter.mp hc).1
    have hp := (List.mem_filter.mp h1).2
    simpa using hp
  · intro hnone
    have hfind : get_contact_by_id contact_id user db = none := by
      unfold get_contact_by_id
      apply List.find?_eq_none.mpr
      intro x hx
      have hx2 := hnone x hx
      simp only [Bool.and_eq_true, beq_iff_eq]
      exact fun hcontra => hx2 hcontra
    constructor
    · simp [update, hfind]
    · simp [remove, hfind]

/-- C7 witness: update and remove on an id that belongs to no stored row
return None and leave the table unchanged. -/
theorem c7_tenant_isolation_witness :
    update 5 body0 user0 [] = (none, []) ∧ remove 5 user0 [] = (none, []) :=
  (c7_tenant_isolation 10 0 5 1 body0 user0 [] none none none
    date0 date0 date0 date0 date0 date0 date0).2.2.2.2.2.2.2.2.2 (by simp)

/-- A prefix is no longer than the list it is a prefix of. -/
lemma isPrefixList_length : ∀ {n h : List Char}, isPrefixList n h = true → n.length ≤ h.length
  | [], _, _ => Nat.zero_le _
  | _ :: _, [], hp => by simp [isPrefixList] at hp
  | _ :: _, _ :: _, hp => by
    simp only [isPrefixList, Bool.and_eq_true] at hp
    simpa using isPrefixList_length hp.2

/-- Between lists of equal length, being a prefix is being equal. -/
lemma isPrefixList_eq : ∀ {n h : List Char}, n.length = h.length →
    (isPrefixList n h = true ↔ n = h)
  | [], [], _ => by simp [isPrefixList]
  | [], _ :: _, hl => by simp at hl
  | _ :: _, [], hl => by simp at hl
  | a :: as, b :: bs, hl => by
    simp only [List.length_cons, Nat.add_right_cancel_iff] at hl
    simp only [isPrefixList, Bool.and_eq_true, beq_iff_eq, List.cons.injEq]
    rw [isPrefixList_eq hl]

/-- A needle longer than the haystack never occurs as a substring. -/
lemma hasInfix_false : ∀ {n h : List Char}, h.length < n.length → hasInfix n h = false
  | n, [], hl => by
    cases n with
    | nil => simp at hl
    | cons a as => simp [hasInfix]
  | n, b :: bs, hl => by
    simp only [hasInfix, Bool.or_eq_false_iff]
    constructor
    · by_contra hp
      simp only [Bool.not_eq_false] at hp
      have hle := isPrefixList_length hp
      simp only [List.length_cons] at hle hl
      omega
    · exact hasInfix_false (by simp only [List.length_cons] at hl ⊢; omega)

/-- Between strings of equal length, substring occurrence is equality. -/
lemma hasInfix_eq {n h : List Char} (hl : n.length = h.length) :
    hasInfix n h = true ↔ n = h := by
  cases h with
  | nil =>
    cases n with
    | nil => simp [hasInfix]
    | cons a as => simp at hl
  | cons b bs =>
    simp only [hasInfix, Bool.or_eq_true]
    constructor
    · rintro (hp | hin)
      · exact (isPrefixList_eq hl).mp hp
      · have hlt : bs.length < n.length := by simp at hl ⊢; omega
        simp [hasInfix_false hlt] at hin
    · intro he
      exact Or.inl ((isPrefixList_eq hl).mpr he)

/-- A month-day rendering is always exactly five characters. -/
lemma strftimeMD_length (d : PyDate) : (strftimeMD d).length = 5 := by
  simp [strftimeMD, pad2]

set_option maxRecDepth 8000 in
/-- Zero-padded two-digit rendering is injective below one hundred. -/
lemma pad2_inj : ∀ a, a < 100 → ∀ b, b < 100 → pad2 a = pad2 b → a = b := by
  decide

/-- For real month-day pairs the strftime renderings agree exactly when
the month and day agree. -/
lemma strftimeMD_eq_iff {d e : PyDate} (hd : d.validMD) (he : e.validMD) :
    strftimeMD d = strftimeMD e ↔ (d.month = e.month ∧ d.day = e.day) := by
  obtain ⟨hd1, hd2, hd3, hd4⟩ := hd
  obtain ⟨he1, he2, he3, he4⟩ := he
  constructor
  · intro h
    simp only [strftimeMD, pad2, List.cons_append, List.nil_append, List.cons.injEq,
      and_true] at h
    obtain ⟨h1, h2, _, h3, h4⟩ := h
    constructor
    · exact pad2_inj d.month (by omega) e.month (by omega) (by simp [pad2, h1, h2])
    · exact pad2_inj d.day (by omega) e.day (by omega) (by simp [pad2, h3, h4])
  · rintro ⟨h1, h2⟩
    simp [strftimeMD, pad2, h1, h2]

/-- One day of the window matches a birthday through the substring test
exactly when the month and day coincide. -/
lemma infix_day_iff {d bd : PyDate} (hd : d.validMD) (hb : bd.validMD) :
    hasInfix (strftimeMD d) (strftimeMD bd) = true ↔
      (bd.month, bd.day) = (d.month, d.day) := by
  rw [hasInfix_eq (by rw [strftimeMD_length, strftimeMD_length])]
  rw [strftimeMD_eq_iff hd hb]
  constructor
  · rintro ⟨h1, h2⟩
    simp [h1, h2]
  · intro h
    simp only [Prod.mk.injEq] at h
    exact ⟨h.1.symm, h.2.symm⟩

/-- Membership in the birthday query result is exactly ownership plus a
month-day hit inside the seven-day window. -/
lemma birthday_contacts_mem_iff {user : User} {d1 d2 d3 d4 d5 d6 d7 : PyDate}
    {db : List Contact} {c : Contact}
    (h1 : d1.validMD) (h2 : d2.validMD) (h3 : d3.validMD) (h4 : d4.validMD)
    (h5 : d5.validMD) (h6 : d6.validMD) (h7 : d7.validMD) (hb : c.birthday.validMD) :
    c ∈ birthday_contacts user d1 d2 d3 d4 d5 d6 d7 db ↔
      c ∈ db ∧ c.user_id = some user.id ∧
        (c.birthday.month, c.birthday.day) ∈
          [d1, d2, d3, d4, d5, d6, d7].map (fun d => (d.month, d.day)) := by
  unfold birthday_contacts
  simp only [List.mem_filter, Bool.or_eq_true, beq_iff_eq,
    infix_day_iff h1 hb, infix_day_iff h2 hb, infix_day_iff h3 hb, infix_day_iff h4 hb,
    infix_day_iff h5 hb, infix_day_iff h6 hb, infix_day_iff h7 hb,
    List.map_cons, List.map_nil, List.mem_cons, List.not_mem_nil, or_false, and_assoc]
  tauto

/-- C8 counterexample: the claim that the substring comparison can
false-positive is refuted; no contact whose birthday month-day misses all
seven window days is ever returned, because both compared strings are
five-character zero-padded month-day renderings, so the substring test is
equality. -/
theorem c8_substring_false_positive_refuted :
    ¬ ∃ (user : User) (db : List Contact) (d1 d2 d3 d4 d5 d6 d7 : PyDate) (c : Contact),
        d1.validMD ∧ d2.validMD ∧ d3.validMD ∧ d4.validMD ∧ d5.validMD ∧ d6.validMD ∧
        d7.validMD ∧ c.birthday.validMD ∧
        c ∈ birthday_contacts user d1 d2 d3 d4 d5 d6 d7 db ∧
        (c.birthday.month, c.birthday.day) ∉
          [d1, d2, d3, d4, d5, d6, d7].map (fun d => (d.month, d.day)) := by
  rintro ⟨user, db, d1, d2, d3, d4, d5, d6, d7, c,
    h1, h2, h3, h4, h5, h6, h7, hb, hmem, hnot⟩
  exact hnot ((birthday_contacts_mem_iff h1 h2 h3 h4 h5 h6 h7 hb).mp hmem).2.2

/-- C8 amended: the birthday query checks its fixed seven-day window by a
substring comparison on month-day strings, and since both strings are
exactly five zero-padded characters the test is equality: a contact is
returned exactly when it belongs to the user and its birthday month-day
equals the month-day of one of the seven window days. -/
theorem c8_birthday_window_exact :
    ∀ (user : User) (db : List Contact) (d1 d2 d3 d4 d5 d6 d7 : PyDate) (c : Contact),
      d1.validMD → d2.validMD → d3.validMD → d4.validMD → d5.validMD → d6.validMD →
      d7.validMD → c.birthday.validMD →
      (c ∈ birthday_contacts user d1 d2 d3 d4 d5 d6 d7 db ↔
        c ∈ db ∧ c.user_id = some user.id ∧
          (c.birthday.month, c.birthday.day) ∈
            [d1, d2, d3, d4, d5, d6, d7].map (fun d => (d.month, d.day))) :=
  fun _ _ _ _ _ _ _ _ _ _ h1 h2 h3 h4 h5 h6 h7 hb =>
    birthday_contacts_mem_iff h1 h2 h3 h4 h5 h6 h7 hb

/-- C8 witness: a contact whose birthday month-day equals a window day is
returned by the query. -/
theorem c8_birthday_window_exact_witness :
    contact0 ∈ birthday_contacts user0 date0 date0 date0 date0 date0 date0 date0 [contact0] :=
  (c8_birthday_window_exact user0 [contact0] date0 date0 date0 date0 date0 date0 date0 contact0
    (by decide) (by decide) (by decide) (by decide) (by decide) (by decide) (by decide)
    (by decide)).mpr (by decide)

end App
